import Mathlib

/-!
Verification of the uniffi `#[uniffi::export]` type-signature classifier
(`third_party/rust/uniffi_macros/src/export/metadata/convert.rs`).

The classifier turns a `syn` surface-syntax type expression into the closed
`uniffi_meta::Type` intermediate representation, rejecting everything outside
the supported grammar.  We shallowly embed the fragment of the `syn` syntax
tree that the classifier inspects, the IR, and the conversion functions, and
prove the specified properties about them.
-/

mutual

/-- Embedding of the fragment of `syn::Type` inspected by `convert.rs`.
`group`/`paren` are the transparent wrappers `syn::Type::Group` and
`syn::Type::Paren`; `path` is `syn::Type::Path` flattened: the `qself` flag
records whether the `TypePath` has a qualified-self component, `leading_colon`
whether its `Path` has a leading `::`, and `segments` is `Path::segments`.
`other` stands for every other `syn::Type` constructor (references, tuples,
slices, trait objects, ...), all of which the code handles uniformly via the
catch-all arm of `type_as_type_path`. -/
inductive SynType : Type where
  | group (elem : SynType)
  | paren (elem : SynType)
  | path (qself : Bool) (leading_colon : Bool) (segments : List PathSegment)
  | other

inductive PathSegment : Type where
  | mk (ident : String) (arguments : PathArguments)

inductive PathArguments : Type where
  | none
  | angleBracketed (args : List GenericArgument)
  | parenthesized

inductive GenericArgument : Type where
  | type (t : SynType)
  | other

end

/-- Accessor for `PathSegment.ident` (the segment's identifier text). -/
def PathSegment.ident : PathSegment → String
  | .mk id _ => id

/-- Accessor for `PathSegment.arguments`. -/
def PathSegment.arguments : PathSegment → PathArguments
  | .mk _ args => args

/-- Embedding of `uniffi_meta::Type`, the closed IR produced by the
classifier.  Variant and field names follow the source. -/
inductive UType : Type where
  | U8 | U16 | U32 | U64 | I8 | I16 | I32 | I64 | F32 | F64 | Bool | String
  | ArcObject (object_name : String)
  | Option (inner_type : UType)
  | Vec (inner_type : UType)
  | HashMap (key_type : UType) (value_type : UType)
deriving DecidableEq, Repr

/-- The distinct `syn::Error` messages produced by `convert.rs`.  Spans are
dropped; errors with the same message text share a constructor
(`typeNotSupported` is the shared `type_not_supported` helper).
`unimplementedPat` models the `unimplemented!()` panic reached by
`fn_param_metadata` on a non-identifier parameter pattern. -/
inductive ConvError : Type where
  | qualifiedSelfUnsupported
  | qualifiedPathUnsupported
  | tooManyGenerics
  | nonTypeGenericArgument
  | typeNotSupported
  | unreachableEmptyPath
  | unimplementedPat
deriving DecidableEq, Repr

/-- The data of a `syn::TypePath`, with its inner `Path` flattened:
`qself` is `TypePath::qself.is_some()`, and `leading_colon` / `segments`
are the fields of `TypePath::path`. -/
structure TypePath : Type where
  qself : Bool
  leading_colon : Bool
  segments : List PathSegment

/-- Embedding of `syn::Path::get_ident` as used via `.path.get_ident()`:
it yields the identifier iff the path has no leading colon and exactly one
segment with no arguments.  The `qself` component is not consulted (the
source calls `get_ident` on the `path` field only). -/
def TypePath.get_ident : TypePath → Option String
  | ⟨_, false, [.mk id .none]⟩ => some id
  | _ => none

/-- Embedding of `type_as_type_path`: strip `Group`/`Paren` wrappers, accept
a path, reject every other type form with `type_not_supported`. -/
def type_as_type_path : SynType → Except ConvError TypePath
  | .group g => type_as_type_path g
  | .paren p => type_as_type_path p
  | .path qself lc segs => .ok ⟨qself, lc, segs⟩
  | .other => .error .typeNotSupported

/-- Embedding of `arg_as_type`: project a generic-argument slot to its type,
rejecting non-type arguments (lifetimes, constants, bindings). -/
def arg_as_type : GenericArgument → Except ConvError SynType
  | .type t => .ok t
  | .other => .error .nonTypeGenericArgument

/-- Embedding of `convert_bare_type_name`: the fixed scalar-name table.
The Rust `match` on `&str` is an equality chain on the identifier text. -/
def convert_bare_type_name (ident : String) : Except ConvError UType :=
  if ident = "u8" then .ok .U8
  else if ident = "u16" then .ok .U16
  else if ident = "u32" then .ok .U32
  else if ident = "u64" then .ok .U64
  else if ident = "i8" then .ok .I8
  else if ident = "i16" then .ok .I16
  else if ident = "i32" then .ok .I32
  else if ident = "i64" then .ok .I64
  else if ident = "f32" then .ok .F32
  else if ident = "f64" then .ok .F64
  else if ident = "bool" then .ok .Bool
  else if ident = "String" then .ok .String
  else .error .typeNotSupported

mutual

/-- Embedding of `convert_type`.  The source first runs
`type_as_type_path(ty)?`; here the `Group`/`Paren` stripping and the
catch-all rejection of that helper are inlined as the first three arms (so
that the recursion is structural); `convert_type_eq_path` below proves the
decomposition through `type_as_type_path` in the source's shape.  Then:
reject a qualified self, reject more than one path segment, and dispatch on
the only segment's arguments exactly as the source does. -/
def convert_type : SynType → Except ConvError UType
  | .group g => convert_type g
  | .paren p => convert_type p
  | .other => .error .typeNotSupported
  | .path qself lc segs =>
    if qself then .error .qualifiedSelfUnsupported
    else if 1 < segs.length then .error .qualifiedPathUnsupported
    else
      match segs with
      | [] => .error .unreachableEmptyPath
      | .mk ident args :: _ =>
        match args with
        | .none => convert_bare_type_name ident
        | .angleBracketed a => convert_generic_type ident a
        | .parenthesized => .error .typeNotSupported
termination_by structural t => t

/-- Embedding of `convert_generic_type`: dispatch on the number of
angle-bracketed arguments (0 / 1 / 2 / more).  In the source the two-argument
case delegates to `convert_generic_type2`; its body is inlined here because
the structural recursion must descend through the single list argument, and
`convert_generic_type_two` below restores the source's decomposition. -/
def convert_generic_type (ident : String) (a : List GenericArgument) :
    Except ConvError UType :=
  match a with
  | [] => convert_bare_type_name ident
  | [arg1] => convert_generic_type1 ident arg1
  | [arg1, arg2] =>
    match arg1 with
    | .other => .error .nonTypeGenericArgument
    | .type t1 =>
      match arg2 with
      | .other => .error .nonTypeGenericArgument
      | .type t2 =>
        if ident = "HashMap" then
          match convert_type t1 with
          | .error e => .error e
          | .ok k =>
            match convert_type t2 with
            | .error e => .error e
            | .ok v => .ok (.HashMap k v)
        else .error .typeNotSupported
  | _ :: _ :: _ :: _ => .error .tooManyGenerics
termination_by structural a

/-- Embedding of `convert_generic_type1`: the source first projects the sole
argument via `arg_as_type(arg)?` and then matches the outer identifier
(`Arc` / `Option` / `Vec`); the projection is inlined as a direct match for
structural recursion, and `convert_generic_type1_proj` below proves the
source's decomposition through `arg_as_type`. -/
def convert_generic_type1 (ident : String) (arg : GenericArgument) :
    Except ConvError UType :=
  match arg with
  | .other => .error .nonTypeGenericArgument
  | .type t =>
    if ident = "Arc" then
      match type_as_type_path t with
      | .error e => .error e
      | .ok tp =>
        match tp.get_ident with
        | some n => .ok (.ArcObject n)
        | none => .error .typeNotSupported
    else if ident = "Option" then
      match convert_type t with
      | .error e => .error e
      | .ok inner => .ok (.Option inner)
    else if ident = "Vec" then
      match convert_type t with
      | .error e => .error e
      | .ok inner => .ok (.Vec inner)
    else .error .typeNotSupported
termination_by structural arg

end

/-- Embedding of `convert_generic_type2` in the source's shape: project both
arguments to types via `arg_as_type`, then match the outer identifier
(`HashMap`, classifying the key first, then the value). -/
def convert_generic_type2 (ident : String) (arg1 arg2 : GenericArgument) :
    Except ConvError UType :=
  match arg_as_type arg1 with
  | .error e => .error e
  | .ok t1 =>
    match arg_as_type arg2 with
    | .error e => .error e
    | .ok t2 =>
      if ident = "HashMap" then
        match convert_type t1 with
        | .error e => .error e
        | .ok k =>
          match convert_type t2 with
          | .error e => .error e
          | .ok v => .ok (.HashMap k v)
      else .error .typeNotSupported

/-- The two-argument arm of `convert_generic_type` is exactly
`convert_generic_type2`, as in the source. -/
theorem convert_generic_type_two (ident : String) (a1 a2 : GenericArgument) :
    convert_generic_type ident [a1, a2] = convert_generic_type2 ident a1 a2 := by
  cases a1 <;> cases a2 <;> rfl

/-- `convert_generic_type1` factors through `arg_as_type` as in the source:
a non-type argument is rejected with the projection's error before the
identifier is examined. -/
theorem convert_generic_type1_proj (ident : String) (arg : GenericArgument) :
    convert_generic_type1 ident arg =
      match arg_as_type arg with
      | .error e => .error e
      | .ok t => convert_generic_type1 ident (.type t) := by
  cases arg <;> rfl

/-- Embedding of `syn::Pat` as matched by `fn_param_metadata`: an identifier
pattern, or anything else (destructuring patterns etc.). -/
inductive Pat : Type where
  | ident (name : String)
  | other

/-- Embedding of `syn::FnArg`: a receiver (`self`-like) parameter, or a
typed pattern parameter. -/
inductive FnArg : Type where
  | receiver
  | typed (pat : Pat) (ty : SynType)

/-- Embedding of `uniffi_meta::FnParamMetadata`. -/
structure FnParamMetadata : Type where
  name : String
  ty : UType
deriving DecidableEq, Repr

/-- Embedding of `fn_param_metadata`: iterate over the declared parameters,
silently skipping receivers; for a typed parameter take the identifier
pattern's name (the source's `unimplemented!()` panic on any other pattern is
modelled as the `unimplementedPat` error), classify the type, and collect.
The `collect` into `syn::Result<Vec<_>>` over the lazy iterator stops at the
first error, producing no partial list and never touching later elements. -/
def fn_param_metadata : List FnArg → Except ConvError (List FnParamMetadata)
  | [] => .ok []
  | .receiver :: rest => fn_param_metadata rest
  | .typed pat ty :: rest =>
    match pat with
    | .other => .error .unimplementedPat
    | .ident name =>
      match convert_type ty with
      | .error e => .error e
      | .ok t =>
        match fn_param_metadata rest with
        | .error e => .error e
        | .ok tail => .ok (⟨name, t⟩ :: tail)

/-- Embedding of `syn::ReturnType`: no annotation, or an annotated type. -/
inductive ReturnType : Type where
  | default
  | type (t : SynType)

/-- Embedding of `return_type_metadata`: absent annotation is `none`,
a present annotation is classified and wrapped in `some`. -/
def return_type_metadata : ReturnType → Except ConvError (Option UType)
  | .default => .ok none
  | .type t =>
    match convert_type t with
    | .error e => .error e
    | .ok u => .ok (some u)

/-- The source's `convert_type` first calls `type_as_type_path(ty)?` and
works on the resulting path: on a stripped path the inlined embedding agrees
with the source's decomposition, and a stripping failure is returned as-is. -/
theorem convert_type_eq_path (ty : SynType) :
    convert_type ty =
      match type_as_type_path ty with
      | .error e => .error e
      | .ok tp => convert_type (.path tp.qself tp.leading_colon tp.segments) := by
  cases ty with
  | group g =>
    have ih := convert_type_eq_path g
    simpa [type_as_type_path, convert_type] using ih
  | paren p =>
    have ih := convert_type_eq_path p
    simpa [type_as_type_path, convert_type] using ih
  | path q lc segs => simp [type_as_type_path]
  | other => simp [type_as_type_path, convert_type]
termination_by sizeOf ty

/-- The twelve scalar names recognized by `convert_bare_type_name`. -/
def scalar_names : List String :=
  ["u8", "u16", "u32", "u64", "i8", "i16", "i32", "i64",
   "f32", "f64", "bool", "String"]

/-- C1: classifying a bare single-segment path whose identifier is one of the
twelve scalar names yields exactly the corresponding scalar IR variant, and
classifying a bare single-segment path with any other identifier fails with
the "type not supported" error (so it never yields a scalar variant). -/
theorem scalar_table_round_trip :
    (convert_type (.path false false [.mk "u8" .none]) = .ok .U8 ∧
     convert_type (.path false false [.mk "u16" .none]) = .ok .U16 ∧
     convert_type (.path false false [.mk "u32" .none]) = .ok .U32 ∧
     convert_type (.path false false [.mk "u64" .none]) = .ok .U64 ∧
     convert_type (.path false false [.mk "i8" .none]) = .ok .I8 ∧
     convert_type (.path false false [.mk "i16" .none]) = .ok .I16 ∧
     convert_type (.path false false [.mk "i32" .none]) = .ok .I32 ∧
     convert_type (.path false false [.mk "i64" .none]) = .ok .I64 ∧
     convert_type (.path false false [.mk "f32" .none]) = .ok .F32 ∧
     convert_type (.path false false [.mk "f64" .none]) = .ok .F64 ∧
     convert_type (.path false false [.mk "bool" .none]) = .ok .Bool ∧
     convert_type (.path false false [.mk "String" .none]) = .ok .String) ∧
    ∀ s : String, s ∉ scalar_names →
      convert_type (.path false false [.mk s .none]) =
        .error .typeNotSupported := by
  constructor
  · exact ⟨rfl, rfl, rfl, rfl, rfl, rfl, rfl, rfl, rfl, rfl, rfl, rfl⟩
  · intro s hs
    simp [scalar_names, List.mem_cons] at hs
    obtain ⟨h1, h2, h3, h4, h5, h6, h7, h8, h9, h10, h11, h12⟩ := hs
    simp [convert_type, convert_bare_type_name,
      h1, h2, h3, h4, h5, h6, h7, h8, h9, h10, h11, h12]

/-- Witness for C1: `MyStruct` is not a scalar name and is rejected. -/
theorem scalar_table_round_trip_witness :
    "MyStruct" ∉ scalar_names ∧
    convert_type (.path false false [.mk "MyStruct" .none]) =
      .error .typeNotSupported :=
  ⟨by decide, scalar_table_round_trip.2 "MyStruct" (by decide)⟩

/-- C2: classification is compositional on the supported wrappers:
`Option<T>` yields `Optional` of the classification of `T`, `Vec<T>` yields
`Sequence` of it, `HashMap<K, V>` yields `Mapping` of the classifications of
`K` and `V` in (key, value) order, errors propagating in each case; in
particular `Option<Vec<u32>>` gives `Optional (Sequence U32)` and
`HashMap<String, Vec<bool>>` gives `Mapping String (Sequence Bool)`. -/
theorem wrapper_compositionality :
    (∀ t : SynType,
      convert_type (.path false false [.mk "Option" (.angleBracketed [.type t])]) =
        match convert_type t with
        | .error e => .error e
        | .ok inner => .ok (.Option inner)) ∧
    (∀ t : SynType,
      convert_type (.path false false [.mk "Vec" (.angleBracketed [.type t])]) =
        match convert_type t with
        | .error e => .error e
        | .ok inner => .ok (.Vec inner)) ∧
    (∀ t1 t2 : SynType,
      convert_type
          (.path false false [.mk "HashMap" (.angleBracketed [.type t1, .type t2])]) =
        match convert_type t1 with
        | .error e => .error e
        | .ok k =>
          match convert_type t2 with
          | .error e => .error e
          | .ok v => .ok (.HashMap k v)) ∧
    convert_type (.path false false [.mk "Option" (.angleBracketed
      [.type (.path false false [.mk "Vec" (.angleBracketed
        [.type (.path false false [.mk "u32" .none])])])])]) =
      .ok (.Option (.Vec .U32)) ∧
    convert_type (.path false false [.mk "HashMap" (.angleBracketed
      [.type (.path false false [.mk "String" .none]),
       .type (.path false false [.mk "Vec" (.angleBracketed
         [.type (.path false false [.mk "bool" .none])])])])]) =
      .ok (.HashMap .String (.Vec .Bool)) := by
  refine ⟨?_, ?_, ?_, rfl, rfl⟩
  · intro t
    simp [convert_type, convert_generic_type, convert_generic_type1]
  · intro t
    simp [convert_type, convert_generic_type, convert_generic_type1]
  · intro t1 t2
    simp [convert_type, convert_generic_type]

/-- C3 counterexample: the claim says that whenever the inner expression of
`Arc<X>` is not a bare single-segment path, classification rejects; but for
`X = (MyObject)` — a parenthesized type, not a bare identifier —
classification succeeds with `ArcObject "MyObject"`, because the code strips
the transparent wrapper via `type_as_type_path` before `get_ident`. -/
theorem arc_paren_inner_accepted :
    convert_type (.path false false [.mk "Arc" (.angleBracketed
      [.type (.paren (.path false false [.mk "MyObject" .none]))])]) =
      .ok (.ArcObject "MyObject") := rfl

/-- C3 (amended): classifying `Arc<X>` first strips transparent
grouping/parenthesization wrappers from `X` via `type_as_type_path`
(propagating its failure when `X` is not a path form); on the resulting type
path, if the path component (leading colon and segments, the qualified-self
flag not being consulted) is a single plain identifier with no arguments,
the result is the owned-shared-reference variant named by that identifier,
and otherwise the "type not supported" error.  In particular `Arc<MyObject>`
yields `ArcObject "MyObject"` and `Arc<Vec<u8>>` fails. -/
theorem arc_inner_bare_ident :
    (∀ X : SynType,
      convert_type (.path false false [.mk "Arc" (.angleBracketed [.type X])]) =
        match type_as_type_path X with
        | .error e => .error e
        | .ok tp =>
          match tp.get_ident with
          | some n => .ok (.ArcObject n)
          | none => .error .typeNotSupported) ∧
    convert_type (.path false false [.mk "Arc" (.angleBracketed
      [.type (.path false false [.mk "MyObject" .none])])]) =
      .ok (.ArcObject "MyObject") ∧
    convert_type (.path false false [.mk "Arc" (.angleBracketed
      [.type (.path false false [.mk "Vec" (.angleBracketed
        [.type (.path false false [.mk "u8" .none])])])])]) =
      .error .typeNotSupported := by
  refine ⟨?_, rfl, rfl⟩
  intro X
  simp [convert_type, convert_generic_type, convert_generic_type1]

/-- C4: parameter extraction walks the declared parameters in order;
receivers are silently omitted; a typed parameter whose type classifies
successfully contributes its (name, IR type) pair at its declaration
position; the first classification failure is returned as the overall result
and no partial list is produced.  The signature
`(self, a: u8, b: Option<String>)` extracts to exactly
`[("a", U8), ("b", Optional String)]`. -/
theorem fn_param_metadata_spec :
    fn_param_metadata [] = .ok [] ∧
    (∀ ps : List FnArg,
      fn_param_metadata (.receiver :: ps) = fn_param_metadata ps) ∧
    (∀ (n : String) (t : SynType) (ps : List FnArg) (v : UType),
      convert_type t = .ok v →
      fn_param_metadata (.typed (.ident n) t :: ps) =
        match fn_param_metadata ps with
        | .error e => .error e
        | .ok tail => .ok (⟨n, v⟩ :: tail)) ∧
    (∀ (n : String) (t : SynType) (ps : List FnArg) (e : ConvError),
      convert_type t = .error e →
      fn_param_metadata (.typed (.ident n) t :: ps) = .error e) ∧
    fn_param_metadata
      [.receiver,
       .typed (.ident "a") (.path false false [.mk "u8" .none]),
       .typed (.ident "b") (.path false false [.mk "Option" (.angleBracketed
         [.type (.path false false [.mk "String" .none])])])] =
      .ok [⟨"a", .U8⟩, ⟨"b", .Option .String⟩] := by
  refine ⟨rfl, fun ps => rfl, ?_, ?_, rfl⟩
  · intro n t ps v h
    simp [fn_param_metadata, h]
  · intro n t ps e h
    simp [fn_param_metadata, h]

/-- Witness for C4: the success equation applied at `(a: u8)` and the
error-propagation equation applied at `(x: &T)` (a non-path type). -/
theorem fn_param_metadata_spec_witness :
    fn_param_metadata [.typed (.ident "a") (.path false false [.mk "u8" .none])] =
      .ok [⟨"a", .U8⟩] ∧
    fn_param_metadata [.typed (.ident "x") .other] =
      .error .typeNotSupported := by
  constructor
  · have h := fn_param_metadata_spec.2.2.1 "a"
      (.path false false [.mk "u8" .none]) [] .U8 rfl
    simpa [fn_param_metadata] using h
  · exact fn_param_metadata_spec.2.2.2.1 "x" .other [] .typeNotSupported rfl

/-- C5: a single-segment path whose only segment carries three or more
angle-bracketed generic arguments is always rejected with the
"more than two generics" error, whatever the identifier — including the
otherwise-supported names — and whatever the arguments are. -/
theorem too_many_generics_rejected :
    ∀ (ident : String) (lc : Bool) (a1 a2 a3 : GenericArgument)
      (rest : List GenericArgument),
      convert_type (.path false lc
        [.mk ident (.angleBracketed (a1 :: a2 :: a3 :: rest))]) =
        .error .tooManyGenerics := by
  intro ident lc a1 a2 a3 rest
  simp [convert_type, convert_generic_type]

/-- C6: a path with two or more segments is always rejected with the
qualified-path error, whatever the segments contain (their identifiers and
argument lists are never inspected); the qualified-self check comes first,
so with a qualified self present the qualified-self error wins; and the
concrete two-segment path `m::u8` fails even though `u8` alone is valid. -/
theorem qualified_path_rejected :
    (∀ (lc : Bool) (s1 s2 : PathSegment) (rest : List PathSegment),
      convert_type (.path false lc (s1 :: s2 :: rest)) =
        .error .qualifiedPathUnsupported) ∧
    (∀ (lc : Bool) (s1 s2 : PathSegment) (rest : List PathSegment),
      convert_type (.path true lc (s1 :: s2 :: rest)) =
        .error .qualifiedSelfUnsupported) ∧
    convert_type (.path false false [.mk "m" .none, .mk "u8" .none]) =
      .error .qualifiedPathUnsupported := by
  refine ⟨?_, ?_, rfl⟩
  · intro lc s1 s2 rest
    have h : 1 < (s1 :: s2 :: rest).length := by
      simp only [List.length_cons]
      omega
    simp [convert_type.eq_def, h]
  · intro lc s1 s2 rest
    simp [convert_type.eq_def]

/-- C7: a non-type generic argument (lifetime, constant, binding) in any
position of a one- or two-argument angle-bracketed list is rejected with the
non-type-generic-argument error, for every outer identifier — the arguments
are projected to types before the identifier is matched. -/
theorem non_type_generic_rejected :
    (∀ (ident : String) (lc : Bool),
      convert_type (.path false lc [.mk ident (.angleBracketed [.other])]) =
        .error .nonTypeGenericArgument) ∧
    (∀ (ident : String) (lc : Bool) (a2 : GenericArgument),
      convert_type (.path false lc [.mk ident (.angleBracketed [.other, a2])]) =
        .error .nonTypeGenericArgument) ∧
    (∀ (ident : String) (lc : Bool) (t : SynType),
      convert_type
          (.path false lc [.mk ident (.angleBracketed [.type t, .other])]) =
        .error .nonTypeGenericArgument) := by
  refine ⟨?_, ?_, ?_⟩
  · intro ident lc
    simp [convert_type, convert_generic_type, convert_generic_type1]
  · intro ident lc a2
    cases a2 <;> simp [convert_type, convert_generic_type]
  · intro ident lc t
    simp [convert_type, convert_generic_type]

/-- C8: the transparent wrappers are semantically inert: classifying `(T)`
(a parenthesized type) or a grouped `T` yields exactly the classification of
`T`, and iterating either wrapper to any depth changes nothing. -/
theorem wrapper_stripping_transparent :
    (∀ t : SynType, convert_type (.paren t) = convert_type t) ∧
    (∀ t : SynType, convert_type (.group t) = convert_type t) ∧
    (∀ (n : Nat) (t : SynType),
      convert_type (SynType.paren^[n] t) = convert_type t) ∧
    (∀ (n : Nat) (t : SynType),
      convert_type (SynType.group^[n] t) = convert_type t) := by
  have hp : ∀ t : SynType, convert_type (.paren t) = convert_type t := by
    intro t
    simp [convert_type]
  have hg : ∀ t : SynType, convert_type (.group t) = convert_type t := by
    intro t
    simp [convert_type]
  refine ⟨hp, hg, ?_, ?_⟩
  · intro n
    induction n with
    | zero => intro t; rfl
    | succ m ih =>
      intro t
      rw [Function.iterate_succ_apply, ih, hp]
  · intro n
    induction n with
    | zero => intro t; rfl
    | succ m ih =>
      intro t
      rw [Function.iterate_succ_apply, ih, hg]

/-- C9: an empty angle-bracketed argument list is treated exactly like no
argument list at all, for every identifier (both are routed to the bare-name
lookup); in particular `u8<>` classifies to `U8` like `u8`, and an
unsupported name with `<>` fails like the bare unsupported name. -/
theorem empty_angle_equiv_bare :
    (∀ (ident : String) (lc : Bool),
      convert_type (.path false lc [.mk ident (.angleBracketed [])]) =
        convert_type (.path false lc [.mk ident .none])) ∧
    convert_type (.path false false [.mk "u8" (.angleBracketed [])]) =
      .ok .U8 := by
  constructor
  · intro ident lc
    simp [convert_type, convert_generic_type]
  · rfl

/-- C10: the top-level classifier never reads a path's leading `::`
qualifier — a path classifies identically whatever that flag is, so `::u8`
classifies to `U8` exactly as `u8` does; only the Arc inner-target check
(through `get_ident`) rejects a leading colon, so `Arc<::MyObject>` fails. -/
theorem leading_colon_ignored_top_level :
    (∀ (q lc lc' : Bool) (segs : List PathSegment),
      convert_type (.path q lc segs) = convert_type (.path q lc' segs)) ∧
    convert_type (.path false true [.mk "u8" .none]) = .ok .U8 ∧
    convert_type (.path false false [.mk "Arc" (.angleBracketed
      [.type (.path false true [.mk "MyObject" .none])])]) =
      .error .typeNotSupported := by
  refine ⟨?_, rfl, rfl⟩
  intro q lc lc' segs
  rw [convert_type.eq_def, convert_type.eq_def]
